import Mathlib

/-!
Verification of the `cluster/job.py` job-submission module.

The definitions below are a shallow embedding of the Python source:

* Python values that matter to the claims (ints, strings, Jobs,
  `multiprocessing.pool.ApplyResult` handles, lists, `None`) are the
  inductives `PyAtom`/`PyVal`; Python exceptions are the inductive `PyErr`;
  fallible code returns `Except PyErr`.
* The filesystem is an association list from absolute path to file
  contents (`FS`).
* Keyword-argument dictionaries are association lists from option name to
  an optional string value; a stored `Option.none` is Python `None`.
* Python string operations are modelled over `List Char` with structural
  recursion so that concrete evaluations reduce inside the kernel.

Each definition carries a comment naming the `job.py` lines it embeds.
-/

/-- Scalar Python values relevant to `job.py`'s dynamic checks.
`aJob done` abstracts a `Job` instance by the one field the local
dependency logic reads (`done`); `aApplyResult` is an opaque
`multiprocessing.pool.ApplyResult` handle. -/
inductive PyAtom where
  | aNone
  | aBool (b : Bool)
  | aInt (n : Int)
  | aStr (s : String)
  | aJob (done : Bool)
  | aApplyResult
deriving DecidableEq

/-- Python values: a scalar, or a list/tuple of scalars (nested containers
never occur in the code paths the claims touch). -/
inductive PyVal where
  | atom (a : PyAtom)
  | pyList (xs : List PyAtom)
  | pyTuple (xs : List PyAtom)
deriving DecidableEq

def PyVal.pyNone : PyVal := .atom .aNone
def PyVal.pyInt (n : Int) : PyVal := .atom (.aInt n)
def PyVal.pyStr (s : String) : PyVal := .atom (.aStr s)
def PyVal.pyJob (done : Bool) : PyVal := .atom (.aJob done)
def PyVal.pyApplyResult : PyVal := .atom .aApplyResult

/-- Python exceptions raised by the embedded code paths. -/
inductive PyErr where
  | typeError
  | attributeError
  | clusterError (msg : String)
  | exception (msg : String)
deriving DecidableEq

/-- Python truthiness (`if x:`) for the values of `PyVal`. -/
def pyTruthy : PyVal → Bool
  | .atom .aNone => false
  | .atom (.aBool b) => b
  | .atom (.aInt n) => n != 0
  | .atom (.aStr s) => s != ""
  | .atom (.aJob _) => true
  | .atom .aApplyResult => true
  | .pyList xs => !xs.isEmpty
  | .pyTuple xs => !xs.isEmpty

/-- `KWARGS` (job.py lines 95-96): the fixed allow-list of keyword options. -/
def KWARGS : List String :=
  ["threads", "cores", "time", "mem", "partition", "modules",
   "dependencies", "suffix"]

/-! ## Python string primitives over `List Char` -/

/-- Strip leading whitespace characters. -/
def lstripChars (cs : List Char) : List Char :=
  cs.dropWhile Char.isWhitespace

/-- Python `str.rstrip()`: strip trailing whitespace characters. -/
def rstripChars (cs : List Char) : List Char :=
  (cs.reverse.dropWhile Char.isWhitespace).reverse

/-- Python `str.split(sep)` for a one-character separator: splits at every
occurrence, keeping empty fields; always returns at least one field. -/
def splitOnCharAux (c : Char) : List Char → List Char → List (List Char)
  | [], acc => [acc.reverse]
  | x :: xs, acc =>
    if x = c then acc.reverse :: splitOnCharAux c xs []
    else splitOnCharAux c xs (x :: acc)

def splitOnChar (c : Char) (s : List Char) : List (List Char) :=
  splitOnCharAux c s []

/-- Decimal digit run to a natural number; `none` on any non-digit,
`some 0` on the empty run (callers reject the empty run themselves). -/
def digitsVal : List Char → Option Nat
  | [] => some 0
  | c :: cs =>
    if c.isDigit then
      match digitsVal cs with
      | some n => some ((c.toNat - 48) * 10 ^ cs.length + n)
      | none => none
    else none

/-- Python `int(s)` on a string: strips surrounding whitespace, allows one
optional sign, then requires a non-empty run of decimal digits; `none`
models `ValueError`. -/
def pyIntChars (cs : List Char) : Option Int :=
  match rstripChars (lstripChars cs) with
  | [] => none
  | c :: rest =>
    if c = '-' then
      if rest.isEmpty then none else (digitsVal rest).map (fun n => -(n : Int))
    else if c = '+' then
      if rest.isEmpty then none else (digitsVal rest).map (fun n => (n : Int))
    else
      (digitsVal (c :: rest)).map (fun n => (n : Int))

/-! ## Submission stdout parsing (Job.submit lines 416 and 444) -/

/-- Job.submit line 416 (slurm branch):
`int(check_output(args).decode().rstrip().split(' ')[-1])`.
Python `split` always returns a non-empty list, so the `getLastD` default
is never used. -/
def parseSlurmJobId (stdout : String) : Option Int :=
  pyIntChars ((splitOnChar ' ' (rstripChars stdout.data)).getLastD [])

/-- Job.submit line 444 (torque branch):
`int(check_output(args).decode().rstrip().split('.')[0])`. -/
def parseTorqueJobId (stdout : String) : Option Int :=
  pyIntChars ((splitOnChar '.' (rstripChars stdout.data)).headD [])

/-! ## Dependency argument rendering (Job.submit lines 399-411 and 427-439,
submit_file lines 800-826) -/

/-- Slurm dependency flag: `'--dependency=afterok:{}'.format(':'.join(ids))`
(Job.submit lines 407-408; submit_file lines 802-803).  In Job.submit the
assignment sits inside the `for` loop, but its final value is computed from
the fully accumulated id list, which is what this definition renders. -/
def slurmDependsArg (ids : List String) : String :=
  "--dependency=afterok:" ++ String.intercalate ":" ids

/-- Torque dependency flag:
`'-W depend={}'.format(','.join(['afterok:' + d for d in dependencies]))`
(Job.submit lines 435-436; submit_file lines 822-823). -/
def torqueDependsArg (ids : List String) : String :=
  "-W depend=" ++ String.intercalate "," (ids.map (fun d => "afterok:" ++ d))

/-- `str(depend)` for an integer dependency id (Job.submit line 406,
submit_file line 798). -/
def depIdStr (d : Int) : String := toString d

/-- The argv built by the slurm branch of Job.submit (lines 399-411) for a
list of integer dependency ids: `['sbatch', depends, script]` when the
dependency list is truthy (non-empty), else `['sbatch', script]`. -/
def slurmSubmitArgv (deps : List Int) (scriptFile : String) : List String :=
  if deps.isEmpty then ["sbatch", scriptFile]
  else ["sbatch", slurmDependsArg (deps.map depIdStr), scriptFile]

/-- The argv built by the torque branch of Job.submit (lines 427-439). -/
def torqueSubmitArgv (deps : List Int) (scriptFile : String) : List String :=
  if deps.isEmpty then ["qsub", scriptFile]
  else ["qsub", torqueDependsArg (deps.map depIdStr), scriptFile]

/-! ## Claim theorems: dependency rendering and stdout parsing -/

/-- C5: for dependency ids [101, 102] the dependency argument handed to the
scheduler command is exactly `--dependency=afterok:101:102` for the
slurm-like backend and exactly `-W depend=afterok:101,afterok:102` for the
torque-like backend, in both Job.submit and submit_file. -/
theorem C5_dependency_format :
    slurmSubmitArgv [101, 102] "f.cluster.sbatch" =
      ["sbatch", "--dependency=afterok:101:102", "f.cluster.sbatch"] ∧
    torqueSubmitArgv [101, 102] "f.cluster.qsub" =
      ["qsub", "-W depend=afterok:101,afterok:102", "f.cluster.qsub"] ∧
    slurmDependsArg (([101, 102] : List Int).map depIdStr) =
      "--dependency=afterok:101:102" ∧
    torqueDependsArg (([101, 102] : List Int).map depIdStr) =
      "-W depend=afterok:101,afterok:102" := by
  refine ⟨rfl, rfl, rfl, rfl⟩

/-- C7: parsing the scheduler submission stdout yields the numeric job id:
the last whitespace-delimited token of "Submitted batch job 4521\n" parses
to 4521 for the slurm-like backend, and the portion of "4521.headnode\n"
before the first dot parses to 4521 for the torque-like backend. -/
theorem C7_id_parsing :
    parseSlurmJobId "Submitted batch job 4521\n" = some 4521 ∧
    parseTorqueJobId "4521.headnode\n" = some 4521 := by
  exact ⟨by decide, by decide⟩

/-! ## Filesystem model and the Script artifact -/

/-- The filesystem: an association list from absolute path to contents. -/
abbrev FS := List (String × String)

/-- `os.path.exists` over the model. -/
def fsExists (fs : FS) (p : String) : Bool :=
  (fs.lookup p).isSome

/-- `open(p, 'w'); write(c)`: replace any entry for `p` with contents `c`. -/
def fsWrite (fs : FS) (p c : String) : FS :=
  (p, c) :: fs.filter (fun e => !(e.1 == p))

/-- The `Script` class (job.py lines 524-543): a script string plus an
absolute file name and the `written` flag (class default `False`). -/
structure ScriptModel where
  file_name : String
  script : String
  written : Bool
deriving DecidableEq

/-- Script.write (lines 535-543): if `overwrite or not os.path.exists(...)`,
write `script + '\n'`, set `written`, and return the file name; otherwise
return `None` and change nothing. -/
def scriptWrite (s : ScriptModel) (overwrite : Bool) (fs : FS) :
    Option String × ScriptModel × FS :=
  if overwrite || !fsExists fs s.file_name then
    (some s.file_name, { s with written := true },
     fsWrite fs s.file_name (s.script ++ "\n"))
  else
    (none, s, fs)

/-! ## Keyword-argument validation (Job.__init__ lines 190-193, submit
lines 665-668, make_job lines 702-705, make_job_file lines 732-735) -/

/-- The loop `for arg in kwargs: if arg not in KWARGS: raise
Exception('Unrecognized argument {arg}')`, over the dict's keys in
insertion order. -/
def checkKwargs : List String → Except PyErr Unit
  | [] => .ok ()
  | k :: ks =>
    if k ∈ KWARGS then checkKwargs ks
    else .error (.exception ("Unrecognized argument " ++ k))

/-- The `submit`/`make_job`/`make_job_file` helpers and `Job.__init__` all
run `checkKwargs` before anything else; `Job.__init__` itself never opens a
file, so on a bad option name the filesystem is returned exactly as it was
handed in, and the later write/submit effect (abstracted as `eff`) never
runs. -/
def submitHelperFS (kwargNames : List String) (fs : FS) (eff : FS → FS) :
    Except PyErr FS :=
  match checkKwargs kwargNames with
  | .error e => .error e
  | .ok () => .ok (eff fs)

/-! ## Dependency validation in Job.__init__ (lines 236-253) -/

/-- Job.__init__ lines 236-253.  When `kwargs['dependencies']` is truthy the
code first evaluates `isinstance(dependencies, 'str')` (line 239): the
classinfo argument is the string literal `'str'`, not the type `str`, so
Python 3 raises `TypeError: isinstance() arg 2 must be a type ...` for
every non-empty dependencies value, and the int/Job/str/list handling on
lines 240-253 is unreachable.  When the value is falsy, `self.dependencies`
keeps its class default `None` (modelled as `Option.none`). -/
def checkDependencies (deps : PyVal) : Except PyErr (Option (List PyVal)) :=
  if pyTruthy deps then .error .typeError
  else .ok none

/-! ## Claim theorems: C1, C8, C9 -/

/-- C1: the claim says a single numeric identifier, a single Job, or a
tuple/list of such values is accepted and normalized into a list, with
`ClusterError` for anything else.  The code instead raises `TypeError` for
every non-empty dependencies value, because `isinstance(dependencies,
'str')` on line 239 passes the string `'str'` as classinfo.  This theorem
evaluates the embedded constructor check at the claim's accepted inputs:
an int id, a digit string, a Job, and a list of ids all hit the
`TypeError`, and no `ClusterError` is ever produced. -/
theorem C1_dependencies_always_typeerror :
    checkDependencies (PyVal.pyInt 101) = .error .typeError ∧
    checkDependencies (PyVal.pyStr "101") = .error .typeError ∧
    checkDependencies (PyVal.pyJob false) = .error .typeError ∧
    checkDependencies (.pyList [.aInt 101, .aInt 102]) = .error .typeError ∧
    checkDependencies PyVal.pyNone = .ok none := by
  refine ⟨rfl, rfl, rfl, rfl, rfl⟩

/-- C8: for a Script whose file already exists, `write(overwrite=False)`
leaves the filesystem unchanged and returns `None` instead of raising,
while `write` with `overwrite=True`, or with no existing file, writes the
script text (plus the trailing newline the code appends) and returns the
file path. -/
theorem C8_script_write (s : ScriptModel) (fs : FS) :
    (fsExists fs s.file_name = true →
      scriptWrite s false fs = (none, s, fs)) ∧
    (∀ ov : Bool, ov = true ∨ fsExists fs s.file_name = false →
      scriptWrite s ov fs =
        (some s.file_name, { s with written := true },
         fsWrite fs s.file_name (s.script ++ "\n"))) := by
  constructor
  · intro h
    simp [scriptWrite, h]
  · intro ov h
    rcases h with h | h
    · subst h; simp [scriptWrite]
    · simp [scriptWrite, h]

/-- Witness for C8 at a concrete Script and filesystem: the file
`/w/a.cluster` exists, so `write(overwrite=False)` is a no-op returning
`None`, and `write(overwrite=True)` rewrites it and returns the path. -/
theorem C8_script_write_witness :
    scriptWrite ⟨"/w/a.cluster", "echo hi", false⟩ false
        [("/w/a.cluster", "old")] =
      (none, ⟨"/w/a.cluster", "echo hi", false⟩, [("/w/a.cluster", "old")]) ∧
    scriptWrite ⟨"/w/a.cluster", "echo hi", false⟩ true
        [("/w/a.cluster", "old")] =
      (some "/w/a.cluster", ⟨"/w/a.cluster", "echo hi", true⟩,
       [("/w/a.cluster", "echo hi\n")]) := by
  have h := C8_script_write ⟨"/w/a.cluster", "echo hi", false⟩
    [("/w/a.cluster", "old")]
  exact ⟨h.1 (by decide), by have h2 := h.2 true (Or.inl rfl); rw [h2]; decide⟩

/-- C9: any keyword option outside the allow-list makes construction and
the submission helpers fail immediately with an error message naming the
offending option, with the filesystem untouched (no file is created). -/
theorem C9_unrecognized_kwarg (ks : List String) (fs : FS) (eff : FS → FS)
    (h : ∃ k, k ∈ ks ∧ k ∉ KWARGS) :
    ∃ k, k ∈ ks ∧ k ∉ KWARGS ∧
      checkKwargs ks = .error (.exception ("Unrecognized argument " ++ k)) ∧
      submitHelperFS ks fs eff =
        .error (.exception ("Unrecognized argument " ++ k)) := by
  have main : ∀ l : List String, (∃ k, k ∈ l ∧ k ∉ KWARGS) →
      ∃ k, k ∈ l ∧ k ∉ KWARGS ∧
        checkKwargs l = .error (.exception ("Unrecognized argument " ++ k)) := by
    intro l
    induction l with
    | nil =>
      intro hl
      rcases hl with ⟨k, hk, _⟩
      exact absurd hk (List.not_mem_nil k)
    | cons k0 l ih =>
      intro hl
      by_cases hk0 : k0 ∈ KWARGS
      · rcases hl with ⟨k, hk, hc⟩
        rcases List.mem_cons.mp hk with rfl | hkm
        · exact absurd hk0 hc
        · rcases ih ⟨k, hkm, hc⟩ with ⟨k1, hk1, hc1, he1⟩
          refine ⟨k1, List.mem_cons_of_mem _ hk1, hc1, ?_⟩
          simp only [checkKwargs]
          rw [if_pos hk0]
          exact he1
      · refine ⟨k0, List.mem_cons_self _ _, hk0, ?_⟩
        simp only [checkKwargs]
        rw [if_neg hk0]
  rcases main ks h with ⟨k, hk, hc, he⟩
  refine ⟨k, hk, hc, he, ?_⟩
  simp only [submitHelperFS]
  rw [he]

/-- Witness for C9: passing `bogus_option` makes the check fail with a
message containing the name, leaving the filesystem empty. -/
theorem C9_unrecognized_kwarg_witness :
    ∃ k, k ∈ ["bogus_option"] ∧ k ∉ KWARGS ∧
      checkKwargs ["bogus_option"] =
        .error (.exception ("Unrecognized argument " ++ k)) ∧
      submitHelperFS ["bogus_option"] ([] : FS) id =
        .error (.exception ("Unrecognized argument " ++ k)) :=
  C9_unrecognized_kwarg ["bogus_option"] [] id
    ⟨"bogus_option", by decide, by decide⟩

/-! ## Keyword-argument dictionary and default filling -/

/-- A Python kwargs dict restricted to the resource options: keys paired
with either a string value (`some s`) or Python `None` (`none`).  (An int
value such as `cores=4` is represented by its `str()` rendering, which is
what `'...{}'.format(v)` inserts.) -/
abbrev PyDict := List (String × Option String)

/-- `'k' in kwargs` -/
def dictContains (d : PyDict) (k : String) : Bool :=
  (d.lookup k).isSome

/-- `kwargs['k']` for a present key (absent keys never get read after the
default-filling loop has run). -/
def dictGet (d : PyDict) (k : String) : Option String :=
  (d.lookup k).getD none

/-- Job.__init__ lines 194-197: `for arg in KWARGS: if arg not in kwargs:
kwargs[arg] = None` — after this loop every allow-listed key is present. -/
def setKwargDefaults (d : PyDict) : PyDict :=
  KWARGS.foldl (fun d k => if dictContains d k then d else d ++ [(k, none)]) d

/-- `'{}'.format(v)`: Python renders `None` as the string "None". -/
def pyFormatOpt : Option String → String
  | none => "None"
  | some s => s

/-- Job.__init__ line 228: `self.cores = kwargs['cores'] if 'cores' in
kwargs else 1`.  (After `setKwargDefaults` the membership test is always
true, so the `else 1` branch is dead and an unsupplied `cores` stays
Python `None`.) -/
def selfCores (kwargs : PyDict) : Option String :=
  if dictContains kwargs "cores" then dictGet kwargs "cores" else some "1"

/-! ## Backend script builders (Job.__init__ lines 286-340) -/

/-- The slurm submission script lines (Job.__init__ lines 288-304), built
from the post-default kwargs dict.  Each directive is guarded by a key
membership test (`'partition' in kwargs` etc.) exactly as in the source. -/
def slurmSubScript (kwargs : PyDict) (name usedir outfile errfile : String) :
    List String :=
  ["#!/bin/bash"]
  ++ (if dictContains kwargs "partition" then
        ["#SBATCH -p " ++ pyFormatOpt (dictGet kwargs "partition")] else [])
  ++ ["#SBATCH --ntasks 1",
      "#SBATCH --cpus-per-task " ++ pyFormatOpt (selfCores kwargs)]
  ++ (if dictContains kwargs "time" then
        ["#SBATCH --time=" ++ pyFormatOpt (dictGet kwargs "time")] else [])
  ++ (if dictContains kwargs "mem" then
        ["#SBATCH --mem=" ++ pyFormatOpt (dictGet kwargs "mem")] else [])
  ++ ["#SBATCH -o " ++ outfile,
      "#SBATCH -e " ++ errfile,
      "cd " ++ usedir,
      "srun bash " ++ usedir ++ "/" ++ name ++ ".script"]

/-- The torque submission script lines (Job.__init__ lines 312-328); the
trailing pre-command/command/post-command block is abstracted as
parameters since no claim constrains its content. -/
def torqueSubScript (kwargs : PyDict) (name : String)
    (precmd command pstcmd : String) : List String :=
  ["#!/bin/bash"]
  ++ (if dictContains kwargs "partition" then
        ["#PBS -q " ++ pyFormatOpt (dictGet kwargs "partition")] else [])
  ++ ["#PBS -l nodes=1:ppn=" ++ pyFormatOpt (selfCores kwargs)]
  ++ (if dictContains kwargs "time" then
        ["#PBS -l walltime=" ++ pyFormatOpt (dictGet kwargs "time")] else [])
  ++ (if dictContains kwargs "mem" then
        ["#PBS mem=" ++ pyFormatOpt (dictGet kwargs "mem") ++ "MB"] else [])
  ++ ["#PBS -o " ++ name ++ ".cluster.out",
      "#PBS -e " ++ name ++ ".cluster.err\n",
      "mkdir -p $LOCAL_SCRATCH",
      precmd, command, pstcmd]

/-- The kwargs dict of a construction that supplies no resource options,
after the line 194-197 default-filling loop. -/
def noOptionKwargs : PyDict := setKwargDefaults []

/-- C3: the claim says resource options (time, mem, partition) left unset
produce no directive line, and unset cores defaults to 1.  In the code,
lines 194-197 insert every allow-listed key with value `None`, so the
membership guards on lines 292-322 always pass: a job constructed with no
options gets the directives `#SBATCH -p None`, `#SBATCH --cpus-per-task
None`, `#SBATCH --time=None` and `#SBATCH --mem=None` (and the torque
equivalents), and `self.cores` is `None`, not 1.  This theorem evaluates
the embedded builders at that failing input. -/
theorem C3_unset_resources_emit_none :
    (slurmSubScript noOptionKwargs "j" "/w" "j.cluster.out"
        "j.cluster.err").contains "#SBATCH -p None" = true ∧
    (slurmSubScript noOptionKwargs "j" "/w" "j.cluster.out"
        "j.cluster.err").contains "#SBATCH --cpus-per-task None" = true ∧
    (slurmSubScript noOptionKwargs "j" "/w" "j.cluster.out"
        "j.cluster.err").contains "#SBATCH --time=None" = true ∧
    (slurmSubScript noOptionKwargs "j" "/w" "j.cluster.out"
        "j.cluster.err").contains "#SBATCH --mem=None" = true ∧
    (torqueSubScript noOptionKwargs "j" "pre" "cmd" "pst").contains
        "#PBS -q None" = true ∧
    (torqueSubScript noOptionKwargs "j" "pre" "cmd" "pst").contains
        "#PBS -l nodes=1:ppn=None" = true ∧
    (torqueSubScript noOptionKwargs "j" "pre" "cmd" "pst").contains
        "#PBS -l walltime=None" = true ∧
    (torqueSubScript noOptionKwargs "j" "pre" "cmd" "pst").contains
        "#PBS mem=NoneMB" = true ∧
    selfCores noOptionKwargs = none := by
  refine ⟨by decide, by decide, by decide, by decide, by decide,
    by decide, by decide, by decide, by decide⟩

/-! ## Submission retry loop (Job.submit lines 412-423 and 440-451,
submit_file lines 807-818 and 827-838 — all four sites share this exact
loop skeleton) -/

/-- The `while True` retry loop.  One external `sbatch`/`qsub` invocation
is `attempt i : Except Unit Int`: `.ok id` when `check_output` succeeds
and its stdout parses to `id`, `.error ()` when it raises
`CalledProcessError`.  Attempts are indexed by the loop's `count`, i.e. by
how many invocations have already failed (a success exits the loop, so
attempt `i` runs exactly when attempts `0..i-1` all failed).  The loop is `try: id = ...; except CalledProcessError:
if count == 5: raise; count += 1; sleep(1); continue; break`.  Returns the
outcome, the number of invocations performed, and the number of `sleep(1)`
calls (one second of delay each).  `count` starts at 0 and the loop raises
at `count == 5`, so at most 6 invocations occur; the fuel argument (always
at least `6 - count`) only makes the recursion structural and is never
exhausted on reachable states. -/
def submitLoopAux (attempt : Nat → Except Unit Int) :
    Nat → Nat → Except Unit Int × Nat × Nat
  | 0, _ => (.error (), 0, 0)
  | fuel + 1, count =>
    match attempt count with
    | .ok id => (.ok id, 1, 0)
    | .error e =>
      if count = 5 then (.error e, 1, 0)
      else
        let r := submitLoopAux attempt fuel (count + 1)
        (r.1, r.2.1 + 1, r.2.2 + 1)

/-- The retry loop as entered by the submission code: `count = 0`. -/
def submitLoop (attempt : Nat → Except Unit Int) :
    Except Unit Int × Nat × Nat :=
  submitLoopAux attempt 6 0

theorem submitLoopAux_ok (attempt : Nat → Except Unit Int)
    (fuel count : Nat) (n : Int) (h : attempt count = .ok n) :
    submitLoopAux attempt (fuel + 1) count = (.ok n, 1, 0) := by
  simp [submitLoopAux, h]

theorem submitLoopAux_err_step (attempt : Nat → Except Unit Int)
    (fuel count : Nat) (h : attempt count = .error ()) (hc : count ≠ 5) :
    submitLoopAux attempt (fuel + 1) count =
      ((submitLoopAux attempt fuel (count + 1)).1,
       (submitLoopAux attempt fuel (count + 1)).2.1 + 1,
       (submitLoopAux attempt fuel (count + 1)).2.2 + 1) := by
  simp [submitLoopAux, h, hc]

theorem submitLoopAux_err_last (attempt : Nat → Except Unit Int)
    (fuel : Nat) (h : attempt 5 = .error ()) :
    submitLoopAux attempt (fuel + 1) 5 = (.error (), 1, 0) := by
  simp [submitLoopAux, h]

/-- C4: a scheduler CLI invocation that fails 4 times and succeeds on the
5th attempt yields a successful submission (5 invocations, 4 one-second
delays, no error surfaced); one that fails on 6 consecutive attempts
propagates the failure after exactly 5 retries (6 invocations, 5
one-second delays). -/
theorem C4_submit_retry (a1 a2 : Nat → Except Unit Int) (n : Int)
    (h1 : ∀ i, i < 4 → a1 i = .error ())
    (h2 : a1 4 = .ok n)
    (h3 : ∀ i, i ≤ 5 → a2 i = .error ()) :
    submitLoop a1 = (.ok n, 5, 4) ∧
    submitLoop a2 = (.error (), 6, 5) := by
  constructor
  · have g4 : submitLoopAux a1 2 4 = (.ok n, 1, 0) :=
      submitLoopAux_ok a1 1 4 n h2
    have g3 : submitLoopAux a1 3 3 = (.ok n, 2, 1) := by
      have step : submitLoopAux a1 3 3 =
          ((submitLoopAux a1 2 4).1, (submitLoopAux a1 2 4).2.1 + 1,
           (submitLoopAux a1 2 4).2.2 + 1) :=
        submitLoopAux_err_step a1 2 3 (h1 3 (by norm_num)) (by norm_num)
      rw [step, g4]
    have g2 : submitLoopAux a1 4 2 = (.ok n, 3, 2) := by
      have step : submitLoopAux a1 4 2 =
          ((submitLoopAux a1 3 3).1, (submitLoopAux a1 3 3).2.1 + 1,
           (submitLoopAux a1 3 3).2.2 + 1) :=
        submitLoopAux_err_step a1 3 2 (h1 2 (by norm_num)) (by norm_num)
      rw [step, g3]
    have g1 : submitLoopAux a1 5 1 = (.ok n, 4, 3) := by
      have step : submitLoopAux a1 5 1 =
          ((submitLoopAux a1 4 2).1, (submitLoopAux a1 4 2).2.1 + 1,
           (submitLoopAux a1 4 2).2.2 + 1) :=
        submitLoopAux_err_step a1 4 1 (h1 1 (by norm_num)) (by norm_num)
      rw [step, g2]
    have g0 : submitLoopAux a1 6 0 = (.ok n, 5, 4) := by
      have step : submitLoopAux a1 6 0 =
          ((submitLoopAux a1 5 1).1, (submitLoopAux a1 5 1).2.1 + 1,
           (submitLoopAux a1 5 1).2.2 + 1) :=
        submitLoopAux_err_step a1 5 0 (h1 0 (by norm_num)) (by norm_num)
      rw [step, g1]
    exact g0
  · have e5 : submitLoopAux a2 1 5 = (.error (), 1, 0) :=
      submitLoopAux_err_last a2 0 (h3 5 le_rfl)
    have e4 : submitLoopAux a2 2 4 = (.error (), 2, 1) := by
      have step : submitLoopAux a2 2 4 =
          ((submitLoopAux a2 1 5).1, (submitLoopAux a2 1 5).2.1 + 1,
           (submitLoopAux a2 1 5).2.2 + 1) :=
        submitLoopAux_err_step a2 1 4 (h3 4 (by norm_num)) (by norm_num)
      rw [step, e5]
    have e3 : submitLoopAux a2 3 3 = (.error (), 3, 2) := by
      have step : submitLoopAux a2 3 3 =
          ((submitLoopAux a2 2 4).1, (submitLoopAux a2 2 4).2.1 + 1,
           (submitLoopAux a2 2 4).2.2 + 1) :=
        submitLoopAux_err_step a2 2 3 (h3 3 (by norm_num)) (by norm_num)
      rw [step, e4]
    have e2 : submitLoopAux a2 4 2 = (.error (), 4, 3) := by
      have step : submitLoopAux a2 4 2 =
          ((submitLoopAux a2 3 3).1, (submitLoopAux a2 3 3).2.1 + 1,
           (submitLoopAux a2 3 3).2.2 + 1) :=
        submitLoopAux_err_step a2 3 2 (h3 2 (by norm_num)) (by norm_num)
      rw [step, e3]
    have e1 : submitLoopAux a2 5 1 = (.error (), 5, 4) := by
      have step : submitLoopAux a2 5 1 =
          ((submitLoopAux a2 4 2).1, (submitLoopAux a2 4 2).2.1 + 1,
           (submitLoopAux a2 4 2).2.2 + 1) :=
        submitLoopAux_err_step a2 4 1 (h3 1 (by norm_num)) (by norm_num)
      rw [step, e2]
    have e0 : submitLoopAux a2 6 0 = (.error (), 6, 5) := by
      have step : submitLoopAux a2 6 0 =
          ((submitLoopAux a2 5 1).1, (submitLoopAux a2 5 1).2.1 + 1,
           (submitLoopAux a2 5 1).2.2 + 1) :=
        submitLoopAux_err_step a2 5 0 (h3 0 (by norm_num)) (by norm_num)
      rw [step, e1]
    exact e0

/-- Witness for C4: concrete attempt sequences — fail below attempt index
4 then succeed with id 4521, and always fail. -/
theorem C4_submit_retry_witness :
    submitLoop (fun i => if i < 4 then .error () else .ok 4521) =
      (.ok 4521, 5, 4) ∧
    submitLoop (fun _ => .error ()) = (.error (), 6, 5) :=
  C4_submit_retry (fun i => if i < 4 then .error () else .ok 4521)
    (fun _ => .error ()) 4521
    (fun i hi => by simp [hi])
    (by norm_num)
    (fun i _ => rfl)

/-! ## Local-backend dependency handling (Job.submit lines 381-396) -/

/-- `isinstance(depend, (Job, pool.ApplyResult))` (line 384). -/
def isJobOrApplyResult : PyVal → Bool
  | .atom (.aJob _) => true
  | .atom .aApplyResult => true
  | _ => false

/-- `isinstance(x, Job)`. -/
def isJobVal : PyVal → Bool
  | .atom (.aJob _) => true
  | _ => false

/-- The message of the line 385-386 raise; the source concatenates
'In normal mode, dependency tracking' and 'only works with Job objects.'
without a separating space, which this string reproduces. -/
def normalDepErrMsg : String :=
  "In normal mode, dependency trackingonly works with Job objects."

/-- `depend.done` (line 388): a Job carries the attribute (class default
plus updates by `wait()`); a `pool.ApplyResult` — or any other value that
might pass the line 384 check — defines no `done` attribute and has no
`__getattr__` fallback, so the access raises `AttributeError`. -/
def depDoneAttr : PyVal → Except PyErr Bool
  | .atom (.aJob d) => .ok d
  | _ => .error .attributeError

/-- Bool view of `Job.done`, for stating which dependencies get waited on. -/
def depDoneB : PyVal → Bool
  | .atom (.aJob d) => d
  | _ => false

/-- The normal-mode dependency loop (lines 382-389): for each dependency in
order, raise unless it is a Job or ApplyResult, then `depend.wait()` unless
`depend.done`.  On success returns the list of dependencies waited on, in
order, all before the job is handed to the worker pool (line 396). -/
def normalDepLoop : List PyVal → Except PyErr (List PyVal)
  | [] => .ok []
  | d :: ds =>
    if !isJobOrApplyResult d then .error (.exception normalDepErrMsg)
    else
      match depDoneAttr d with
      | .error e => .error e
      | .ok dn =>
        match normalDepLoop ds with
        | .error e => .error e
        | .ok ws => .ok ((if dn then [] else [d]) ++ ws)

theorem isJobVal_elim (x : PyVal) (h : isJobVal x = true) :
    ∃ b, x = PyVal.atom (.aJob b) := by
  cases x with
  | atom a =>
    cases a with
    | aJob b => exact ⟨b, rfl⟩
    | aNone => exact absurd h (by simp [isJobVal])
    | aBool b => exact absurd h (by simp [isJobVal])
    | aInt n => exact absurd h (by simp [isJobVal])
    | aStr s => exact absurd h (by simp [isJobVal])
    | aApplyResult => exact absurd h (by simp [isJobVal])
  | pyList xs => exact absurd h (by simp [isJobVal])
  | pyTuple xs => exact absurd h (by simp [isJobVal])

theorem normalDepLoop_all_jobs (l : List PyVal)
    (h : ∀ x ∈ l, isJobVal x = true) :
    normalDepLoop l = .ok (l.filter (fun x => !depDoneB x)) := by
  induction l with
  | nil => rfl
  | cons x ds ih =>
    obtain ⟨b, rfl⟩ := isJobVal_elim x (h x (List.mem_cons_self _ _))
    have hds := ih (fun y hy => h y (List.mem_cons_of_mem _ hy))
    cases b with
    | true =>
      simp [normalDepLoop, isJobOrApplyResult, depDoneAttr, hds, depDoneB,
        List.filter_cons]
    | false =>
      simp [normalDepLoop, isJobOrApplyResult, depDoneAttr, hds, depDoneB,
        List.filter_cons]

theorem normalDepLoop_first_bad (pre : List PyVal) (d : PyVal)
    (post : List PyVal) (hpre : ∀ x ∈ pre, isJobVal x = true)
    (hd : isJobOrApplyResult d = false) :
    normalDepLoop (pre ++ d :: post) = .error (.exception normalDepErrMsg) := by
  induction pre with
  | nil => simp [normalDepLoop, hd]
  | cons x pre ih =>
    obtain ⟨b, rfl⟩ := isJobVal_elim x (hpre x (List.mem_cons_self _ _))
    have h2 := ih (fun y hy => hpre y (List.mem_cons_of_mem _ hy))
    simp [normalDepLoop, isJobOrApplyResult, depDoneAttr, h2]

/-- C6 counterexample: the claim says every dependency value that is not a
Job object makes the local-backend submit fail fast with the dependency
type error.  A `pool.ApplyResult` is not a Job, yet it passes the
`isinstance(depend, (Job, pool.ApplyResult))` check on line 384, so the
type error is not raised for it (the loop instead dies later with
`AttributeError` at `depend.done`). -/
theorem C6_applyresult_passes_type_check :
    normalDepLoop [PyVal.pyApplyResult] ≠
      Except.error (.exception normalDepErrMsg) ∧
    normalDepLoop [PyVal.pyApplyResult] = Except.error .attributeError ∧
    isJobOrApplyResult PyVal.pyApplyResult = true ∧
    isJobVal PyVal.pyApplyResult = false := by
  refine ⟨?_, rfl, rfl, rfl⟩
  intro h
  rw [show normalDepLoop [PyVal.pyApplyResult] =
    Except.error PyErr.attributeError from rfl] at h
  exact absurd (Except.error.inj h) (by simp [normalDepErrMsg])

/-- C6 (amended): for every local-backend Job.submit call, a dependency
value that is neither a Job nor a worker-pool `pool.ApplyResult` handle
(with only Jobs before it) makes submit fail fast with the dependency-type
error, and when every dependency is a Job, submit succeeds after waiting,
in order, on exactly the unfinished ones before the job is enqueued. -/
theorem C6_local_dependency_check (pre post deps : List PyVal) (d : PyVal)
    (hpre : ∀ x ∈ pre, isJobVal x = true)
    (hd : isJobOrApplyResult d = false)
    (hdeps : ∀ x ∈ deps, isJobVal x = true) :
    normalDepLoop (pre ++ d :: post) =
      .error (.exception normalDepErrMsg) ∧
    normalDepLoop deps = .ok (deps.filter (fun x => !depDoneB x)) :=
  ⟨normalDepLoop_first_bad pre d post hpre hd,
   normalDepLoop_all_jobs deps hdeps⟩

/-- Witness for C6: a raw id 7 after a finished Job raises the type error;
a finished and an unfinished Job make submit wait on exactly the
unfinished one. -/
theorem C6_local_dependency_check_witness :
    normalDepLoop [PyVal.pyJob true, PyVal.pyInt 7] =
      .error (.exception normalDepErrMsg) ∧
    normalDepLoop [PyVal.pyJob true, PyVal.pyJob false] =
      .ok ([PyVal.pyJob true, PyVal.pyJob false].filter
        (fun x => !depDoneB x)) :=
  C6_local_dependency_check [PyVal.pyJob true] []
    [PyVal.pyJob true, PyVal.pyJob false] (PyVal.pyInt 7)
    (by decide) (by decide) (by decide)

/-! ## Dynamic attribute resolution (Job.__getattr__ lines 488-496) -/

/-- `Job.__getattr__` (lines 488-496): invoked only when normal attribute
lookup fails; returns the computed artifact list for the key `files` and
falls off the end of the function, i.e. returns `None`, for every other
key.  `filesVal` abstracts the computed
`[submission, exec_script?, function?]` list. -/
def jobGetattrMiss (filesVal : PyVal) (key : String) : PyVal :=
  if key = "files" then filesVal else PyVal.pyNone

/-- Full attribute resolution on a Job: the instance dict first, then the
class defaults (both folded into `attrs`, instance entries first), then
the `__getattr__` fallback on a miss. -/
def jobGetattr (attrs : List (String × PyVal)) (filesVal : PyVal)
    (key : String) : PyVal :=
  match attrs.lookup key with
  | some v => v
  | none => jobGetattrMiss filesVal key

/-- The attribute dictionary of a freshly constructed Job: the assignments
`__init__` performs (cores, outfile, errfile, qtype, submission always —
lines 228-233, 289, 313, 330, 343; dependencies and function only for some
inputs — lines 238, 257 — passed here as options; `exec_script` is never
assigned by `__init__`, see C2), shadowing the class defaults of lines
160-177.  Neither `stdout` nor `stderr` appears: no code in the class ever
assigns them. -/
def jobInitAttrs (qtype name suffix : String) (cores submission : PyVal)
    (deps func : Option PyVal) : List (String × PyVal) :=
  [("cores", cores),
   ("outfile", PyVal.pyStr (name ++ "." ++ suffix ++ ".out")),
   ("errfile", PyVal.pyStr (name ++ "." ++ suffix ++ ".err")),
   ("qtype", PyVal.pyStr qtype),
   ("submission", submission)]
  ++ (match deps with | some d => [("dependencies", d)] | none => [])
  ++ (match func with | some f => [("function", f)] | none => [])
  ++ [("id", PyVal.pyNone), ("submitted", PyVal.atom (.aBool false)),
      ("written", PyVal.atom (.aBool false)),
      ("done", PyVal.atom (.aBool false)),
      ("pool_job", PyVal.pyNone), ("exec_script", PyVal.pyNone),
      ("function", PyVal.pyNone), ("dependencies", PyVal.pyNone),
      ("queue_info", PyVal.pyNone)]

/-- Job.submit normal branch, lines 393-396:
`args = dict(stdout=self.stdout, stderr=self.stderr)` — the output-path
arguments handed to `POOL.apply_async(run.cmd, (command,), args)`. -/
def normalSubmitOutArgs (attrs : List (String × PyVal)) (filesVal : PyVal) :
    PyVal × PyVal :=
  (jobGetattr attrs filesVal "stdout", jobGetattr attrs filesVal "stderr")

/-- C10: reading any attribute that is neither set by `__init__` nor a
class default returns `None` instead of raising AttributeError, with only
`files` computed; in particular the local-backend submit path reads the
never-assigned `Job.stdout`/`Job.stderr`, so the worker-pool invocation
receives `None` for both output paths, not the job's outfile/errfile
(which are genuine strings). -/
theorem C10_getattr_none (qtype name suffix : String)
    (cores submission filesVal : PyVal) (deps func : Option PyVal)
    (key : String)
    (hk : (jobInitAttrs qtype name suffix cores submission deps
      func).lookup key = none)
    (hf : key ≠ "files") :
    jobGetattr (jobInitAttrs qtype name suffix cores submission deps func)
        filesVal key = PyVal.pyNone ∧
    jobGetattr (jobInitAttrs qtype name suffix cores submission deps func)
        filesVal "files" = filesVal ∧
    normalSubmitOutArgs
        (jobInitAttrs qtype name suffix cores submission deps func)
        filesVal = (PyVal.pyNone, PyVal.pyNone) ∧
    jobGetattr (jobInitAttrs qtype name suffix cores submission deps func)
        filesVal "outfile" = PyVal.pyStr (name ++ "." ++ suffix ++ ".out") ∧
    PyVal.pyStr (name ++ "." ++ suffix ++ ".out") ≠ PyVal.pyNone := by
  refine ⟨?_, ?_, ?_, ?_, ?_⟩
  · rw [jobGetattr, hk, jobGetattrMiss, if_neg hf]
  · rcases deps with _ | d <;> rcases func with _ | f <;>
      simp [jobGetattr, jobInitAttrs, jobGetattrMiss, List.lookup]
  · rcases deps with _ | d <;> rcases func with _ | f <;>
      simp [normalSubmitOutArgs, jobGetattr, jobInitAttrs, jobGetattrMiss,
        List.lookup, PyVal.pyNone]
  · rcases deps with _ | d <;> rcases func with _ | f <;>
      simp [jobGetattr, jobInitAttrs, List.lookup]
  · simp [PyVal.pyStr, PyVal.pyNone]

/-- Witness for C10 at a concrete local-backend Job (`j`, default suffix)
and the never-assigned key `stdout`. -/
theorem C10_getattr_none_witness :
    jobGetattr (jobInitAttrs "normal" "j" "cluster" PyVal.pyNone
        (PyVal.pyStr "s") none none) (PyVal.pyList []) "stdout" =
      PyVal.pyNone ∧
    jobGetattr (jobInitAttrs "normal" "j" "cluster" PyVal.pyNone
        (PyVal.pyStr "s") none none) (PyVal.pyList []) "files" =
      PyVal.pyList [] ∧
    normalSubmitOutArgs (jobInitAttrs "normal" "j" "cluster" PyVal.pyNone
        (PyVal.pyStr "s") none none) (PyVal.pyList []) =
      (PyVal.pyNone, PyVal.pyNone) ∧
    jobGetattr (jobInitAttrs "normal" "j" "cluster" PyVal.pyNone
        (PyVal.pyStr "s") none none) (PyVal.pyList []) "outfile" =
      PyVal.pyStr ("j" ++ "." ++ "cluster" ++ ".out") ∧
    PyVal.pyStr ("j" ++ "." ++ "cluster" ++ ".out") ≠ PyVal.pyNone :=
  C10_getattr_none "normal" "j" "cluster" PyVal.pyNone (PyVal.pyStr "s")
    (PyVal.pyList []) none none "stdout" (by decide) (by decide)

/-! ## Slurm artifact names and the missing exec script (Job.__init__
lines 288-311 and 342-347, Job.write lines 353-360) -/

/-- Job.__init__ line 290:
`scrpt = os.path.join(usedir, '{name}.cluster.sbatch')` — the literal
`cluster`, regardless of the suffix option. -/
def slurmScrptPath (usedir name : String) : String :=
  usedir ++ "/" ++ name ++ ".cluster.sbatch"

/-- Job.__init__ line 305:
`exe_scrpt = os.path.join(usedir, name + '.script')`. -/
def slurmExeScrptPath (usedir name : String) : String :=
  usedir ++ "/" ++ name ++ ".script"

/-- Job.__init__ lines 345-347: `if self.exe_scrpt: self.exec_script =
Script(...)`.  `exe_scrpt` only ever exists as a local variable; the
attribute lookup `self.exe_scrpt` misses and `__getattr__` returns `None`,
which is falsy, so `exec_script` keeps its class default `None` on every
construction. -/
def slurmExecScript (attrs : List (String × PyVal)) (filesVal : PyVal)
    (usedir name execContent : String) : Option ScriptModel :=
  if pyTruthy (jobGetattr attrs filesVal "exe_scrpt") then
    some { file_name := slurmExeScrptPath usedir name,
           script := execContent, written := false }
  else none

/-- Job.write (lines 353-360): writes the submission script, then the exec
script and the function script only when they are set. -/
def jobWriteFS (submission : ScriptModel)
    (execScript funcScript : Option ScriptModel) (fs : FS) : FS :=
  let fs1 := (scriptWrite submission true fs).2.2
  let fs2 := match execScript with
    | some e => (scriptWrite e true fs1).2.2
    | none => fs1
  match funcScript with
  | some f => (scriptWrite f true fs2).2.2
  | none => fs2

/-- The submission Script of the demonstration slurm job `myjob` in
working directory `/work` (content abstracted as "sub"). -/
def slurmDemoSubmission : ScriptModel :=
  { file_name := slurmScrptPath "/work" "myjob", script := "sub",
    written := false }

/-- The attribute dict of that job right after construction. -/
def slurmDemoAttrs : List (String × PyVal) :=
  jobInitAttrs "slurm" "myjob" "cluster" PyVal.pyNone (PyVal.pyStr "sub")
    none none

/-- C2: the claim says every slurm Job owns a secondary execution artifact
named `<name>.<suffix>.script` and that write() persists it to disk.  In
the code (a) line 345 tests the never-assigned attribute `self.exe_scrpt`,
which resolves to `None` via `__getattr__`, so `exec_script` is never
created and write() persists no execution artifact at all; and (b) even
the file name line 305 intends is `<name>.script`, without the suffix —
contradicting the module docstring (lines 21, 45) and the
`.cluster.script` extension `clean_dir` scans for (line 870).  Evaluated
at a slurm job `myjob` with the default suffix `cluster` in `/work`. -/
theorem C2_slurm_exec_script_missing :
    slurmExecScript slurmDemoAttrs (PyVal.pyList []) "/work" "myjob"
      "exec" = none ∧
    slurmExeScrptPath "/work" "myjob" ≠ "/work/myjob.cluster.script" ∧
    fsExists (jobWriteFS slurmDemoSubmission
      (slurmExecScript slurmDemoAttrs (PyVal.pyList []) "/work" "myjob"
        "exec") none []) "/work/myjob.cluster.script" = false ∧
    fsExists (jobWriteFS slurmDemoSubmission
      (slurmExecScript slurmDemoAttrs (PyVal.pyList []) "/work" "myjob"
        "exec") none []) "/work/myjob.script" = false ∧
    fsExists (jobWriteFS slurmDemoSubmission
      (slurmExecScript slurmDemoAttrs (PyVal.pyList []) "/work" "myjob"
        "exec") none []) "/work/myjob.cluster.sbatch" = true := by
  refine ⟨by decide, by decide, by decide, by decide, by decide⟩
